import Mathlib

/-!
Verification of the PWM LED kernel module (`Project_DD/leds (1).c`).

The module drives one LED with software PWM from two debounced push-buttons.
We shallowly embed the C code: machine `int` values are modelled as
unbounded `Int` (no computation in the claims approaches the 32-bit range on
the inputs considered), C integer division (truncation toward zero) is
`Int.tdiv`, `struct timespec64` values are represented by their total
nanosecond count (a normalized timespec with seconds `s` and nanoseconds
`n`, `0 ≤ n < 10^9`, corresponds uniquely to the integer `s * 10^9 + n`;
`timespec64_sub` followed by `set_normalized_timespec64` realizes exactly
the floor-division decomposition of the difference of the totals), and the
fallible C division (undefined on divisor 0) is `checked_tdiv` returning
`Option`.
-/

/-! ## Constants from the C source -/

def BUTTON_DEBOUNCE : Int := 200

def LED_MIN_LEVEL : Int := 0

def LED_MAX_LEVEL_DEFAULT : Int := 5

def PULSE_FREQUENCY_DEFAULT : Int := 100000

def MSEC_PER_SEC : Int := 1000

def NSEC_PER_MSEC : Int := 1000000

def USEC_PER_SEC : Int := 1000000

def NSEC_PER_SEC : Int := 1000000000

def DOWN_BUTTON_GPIO_DEFAULT : Int := 23

def UP_BUTTON_GPIO_DEFAULT : Int := 24

def LED_GPIO_DEFAULT : Int := 18

/-- C integer division: truncation toward zero. -/
def cdiv (a b : Int) : Int := Int.tdiv a b

/-- C integer division as a fallible operation: division by zero is
undefined behaviour, modelled as `none`. -/
def checked_tdiv (a b : Int) : Option Int :=
  if b = 0 then none else some (cdiv a b)

/-- `enum event` from the C source. -/
inductive Event where
  | NONE
  | UP
  | DOWN
deriving DecidableEq, Repr

/-- `enum led_state` from the C source. -/
inductive LedState where
  | OFF
  | ON
  | MAX
deriving DecidableEq, Repr

/-- The three functions the `fsm_functions` table can point to. -/
inductive FsmAction where
  | do_nothing
  | increase_led_brightness
  | decrease_led_brightness
deriving DecidableEq, Repr

/-- Effect of each table entry on the atomic `led_level`
(`atomic_inc` / `atomic_dec` / no write). -/
def FsmAction.apply : FsmAction → Int → Int
  | .do_nothing, l => l
  | .increase_led_brightness, l => l + 1
  | .decrease_led_brightness, l => l - 1

/-- The 3×3 function-pointer table `fsm_functions[NUM_STATES][NUM_EVENTS]`,
rows indexed by `led_state` (OFF, ON, MAX), columns by `event`
(NONE, UP, DOWN). -/
def fsm_functions : LedState → Event → FsmAction
  | .OFF, .NONE => .do_nothing
  | .OFF, .UP => .increase_led_brightness
  | .OFF, .DOWN => .do_nothing
  | .ON, .NONE => .do_nothing
  | .ON, .UP => .increase_led_brightness
  | .ON, .DOWN => .decrease_led_brightness
  | .MAX, .NONE => .do_nothing
  | .MAX, .UP => .do_nothing
  | .MAX, .DOWN => .decrease_led_brightness

/-- `validate_led_max_level`: clamp a configured maximum level below
`LED_MIN_LEVEL` up to `LED_MIN_LEVEL`. -/
def validate_led_max_level (led_max_level : Int) : Int :=
  if led_max_level < LED_MIN_LEVEL then LED_MIN_LEVEL else led_max_level

/-- `update_led_state`: recompute the cached `led_state` from the current
level (the `if` chain checks `level == LED_MIN_LEVEL` first, then
`level == led_max_level`). -/
def update_led_state (led_max_level level : Int) : LedState :=
  if level = LED_MIN_LEVEL then .OFF
  else if level = led_max_level then .MAX
  else .ON

/-- The state touched by the brightness state machine: the atomic
`led_level` and the cached `led_state`. -/
structure FsmState where
  led_level : Int
  led_state : LedState
deriving DecidableEq, Repr

/-- Initial values from the C globals: `led_level = ATOMIC_INIT(LED_MIN_LEVEL)`,
`led_state = OFF`. -/
def initial_fsm_state : FsmState := { led_level := LED_MIN_LEVEL, led_state := .OFF }

/-- The state-transforming part of `led_level_func`: dispatch the table entry
for the cached state and the pending event, then `update_led_state`. -/
def led_level_step (led_max_level : Int) (s : FsmState) (ev : Event) : FsmState :=
  let lvl := (fsm_functions s.led_state ev).apply s.led_level
  { led_level := lvl, led_state := update_led_state led_max_level lvl }

/-- The full work function `led_level_func`: the state transition followed by
the observability computation `led_brightness_percent = 100 * level / led_max_level`
(a fallible C division, undefined when `led_max_level` is 0). Returns the new
state and the logged percentage, or `none` when the division faults. -/
def led_level_func (led_max_level : Int) (s : FsmState) (ev : Event) :
    Option (FsmState × Int) :=
  let s' := led_level_step led_max_level s ev
  match checked_tdiv (100 * s'.led_level) led_max_level with
  | some pct => some (s', pct)
  | none => none

/-- Run the state machine over a sequence of processed events. -/
def led_level_run (led_max_level : Int) (s : FsmState) : List Event → FsmState
  | [] => s
  | ev :: evs => led_level_run led_max_level (led_level_step led_max_level s ev) evs

/-! ## Debounce filter (`button_irq_handler`) -/

/-- `irqreturn_t` values the handler can produce. -/
inductive Irqreturn where
  | IRQ_NONE
  | IRQ_HANDLED
deriving DecidableEq, Repr

/-- State touched by the interrupt handler: the two per-line debounce clocks
(total nanoseconds of `prev_down_button_irq` / `prev_up_button_irq`) and the
pending `led_event` slot. -/
structure BtnState where
  prev_down_button_irq : Int
  prev_up_button_irq : Int
  led_event : Event
deriving DecidableEq, Repr

/-- The handler's elapsed-milliseconds computation:
`timespec64_sub(now, prev)` normalized (floor-division decomposition of the
nanosecond difference), then `tv_sec * MSEC_PER_SEC + tv_nsec / NSEC_PER_MSEC`.
The normalized `tv_nsec` is nonnegative, so the C truncating division equals
Euclidean division here. -/
def millis_since_last_irq (now prev : Int) : Int :=
  ((now - prev) / NSEC_PER_SEC) * MSEC_PER_SEC
    + ((now - prev) % NSEC_PER_SEC) / NSEC_PER_MSEC

/-- `button_irq_handler`: debounce the edge on the matching line, record the
event and re-arm the clock on acceptance, then schedule `led_level_work`;
drop the edge (returning early) when inside the debounce window. Result:
(new state, whether `schedule_work(&led_level_work)` ran, return value). -/
def button_irq_handler (down_button_irq up_button_irq irq now : Int)
    (s : BtnState) : BtnState × Bool × Irqreturn :=
  if irq = down_button_irq then
    if millis_since_last_irq now s.prev_down_button_irq < BUTTON_DEBOUNCE then
      (s, false, .IRQ_HANDLED)
    else
      ({ s with prev_down_button_irq := now, led_event := .DOWN }, true, .IRQ_HANDLED)
  else if irq = up_button_irq then
    if millis_since_last_irq now s.prev_up_button_irq < BUTTON_DEBOUNCE then
      (s, false, .IRQ_HANDLED)
    else
      ({ s with prev_up_button_irq := now, led_event := .UP }, true, .IRQ_HANDLED)
  else
    (s, true, .IRQ_HANDLED)

/-! ## Software PWM engine (`led_ctrl_func`) -/

/-- State touched by the PWM work function: the output line's current level
(`false` = LOW, `true` = HIGH) and `prev_led_switch` (total nanoseconds). -/
structure CtrlState where
  led_gpio_value : Bool
  prev_led_switch : Int
deriving DecidableEq, Repr

/-- The C source's elapsed computation for the PWM engine, line 355:
`(diff.tv_sec * USEC_PER_SEC) + diff.tv_nsec` — note it scales the seconds
field by `USEC_PER_SEC` (10^6), not `NSEC_PER_SEC`, and adds the nanosecond
remainder. Embedded faithfully. -/
def nanos_since_led_switch (now prev : Int) : Int :=
  ((now - prev) / NSEC_PER_SEC) * USEC_PER_SEC + (now - prev) % NSEC_PER_SEC

/-- The dwell computation of `led_ctrl_func`: how long the line must stay at
its current value before flipping. -/
def required_delay (pulse_frequency led_max_level level : Int)
    (led_gpio_value : Bool) : Int :=
  if led_gpio_value = false then
    pulse_frequency - cdiv (pulse_frequency * level) led_max_level
  else
    cdiv (pulse_frequency * level) led_max_level

/-- One iteration of `led_ctrl_func`: force the line at the boundary levels
and reschedule; otherwise flip the line and re-arm `prev_led_switch` when the
computed elapsed value has reached the required dwell. Result:
(new state, whether `schedule_work` ran — it always does). -/
def led_ctrl_func (led_max_level pulse_frequency level now : Int)
    (s : CtrlState) : CtrlState × Bool :=
  let nanos := nanos_since_led_switch now s.prev_led_switch
  if level = LED_MIN_LEVEL ∨ level = led_max_level then
    ({ s with led_gpio_value := if level = LED_MIN_LEVEL then false else true }, true)
  else
    if nanos ≥ required_delay pulse_frequency led_max_level level s.led_gpio_value then
      ({ led_gpio_value := !s.led_gpio_value, prev_led_switch := now }, true)
    else
      (s, true)

/-! ## Module initialization (`pwm_led_init` and helpers) -/

/-- Oracle for the GPIO/IRQ platform collaborators: which line identifiers
are valid, which `gpio_request` calls succeed, the GPIO→IRQ mapping, and
which `request_irq` calls succeed. -/
structure GpioEnv where
  gpio_is_valid : Int → Bool
  gpio_request_ok : Int → Bool
  gpio_to_irq : Int → Int
  request_irq_ok : Int → Bool

/-- Resources held by the module: GPIOs successfully requested and IRQs
successfully registered, in acquisition order. -/
structure Resources where
  gpios : List Int
  irqs : List Int
deriving DecidableEq, Repr

/-- `setup_pwm_led_gpio`: validity check, then `gpio_request`, then direction
setup (no resource effect). Returns `-EINVAL` (−22) on an invalid GPIO and
the request's error (modelled as −16) on request failure. -/
def setup_pwm_led_gpio (env : GpioEnv) (gpio : Int) (r : Resources) :
    Int × Resources :=
  if env.gpio_is_valid gpio = false then (-22, r)
  else if env.gpio_request_ok gpio then (0, { r with gpios := r.gpios ++ [gpio] })
  else (-16, r)

/-- `setup_pwm_led_gpios`: acquire the down button, up button and LED lines in
order, returning at the first failure (without releasing earlier lines). -/
def setup_pwm_led_gpios (env : GpioEnv)
    (down_button_gpio up_button_gpio led_gpio : Int) (r : Resources) :
    Int × Resources :=
  let (ret, r) := setup_pwm_led_gpio env down_button_gpio r
  if ret ≠ 0 then (ret, r)
  else
    let (ret, r) := setup_pwm_led_gpio env up_button_gpio r
    if ret ≠ 0 then (ret, r)
    else setup_pwm_led_gpio env led_gpio r

/-- `gpio_free`: release one line (no-op when not held). -/
def gpio_free (gpio : Int) (r : Resources) : Resources :=
  { r with gpios := r.gpios.filter (fun g => g ≠ gpio) }

/-- `unset_pwm_led_gpios`: free all three configured lines. -/
def unset_pwm_led_gpios (down_button_gpio up_button_gpio led_gpio : Int)
    (r : Resources) : Resources :=
  gpio_free led_gpio (gpio_free up_button_gpio (gpio_free down_button_gpio r))

/-- `free_irq`: unregister one interrupt (no-op when not registered). -/
def free_irq (irq : Int) (r : Resources) : Resources :=
  { r with irqs := r.irqs.filter (fun i => i ≠ irq) }

/-- `setup_pwm_led_irq`: map the GPIO to an IRQ (negative result = failure),
then `request_irq`. Returns (return code, obtained IRQ number, resources). -/
def setup_pwm_led_irq (env : GpioEnv) (gpio : Int) (r : Resources) :
    Int × Int × Resources :=
  let irq := env.gpio_to_irq gpio
  if irq < 0 then (irq, irq, r)
  else if env.request_irq_ok irq then (0, irq, { r with irqs := r.irqs ++ [irq] })
  else (-16, irq, r)

/-- `setup_pwm_led_irqs`: register the down-button IRQ, then the up-button
IRQ; on failure of the latter, free the former before returning. Returns
(return code, down IRQ, up IRQ, resources). -/
def setup_pwm_led_irqs (env : GpioEnv) (down_button_gpio up_button_gpio : Int)
    (r : Resources) : Int × Int × Int × Resources :=
  let (ret, down_irq, r) := setup_pwm_led_irq env down_button_gpio r
  if ret ≠ 0 then (ret, down_irq, 0, r)
  else
    let (ret2, up_irq, r2) := setup_pwm_led_irq env up_button_gpio r
    if ret2 ≠ 0 then (ret2, down_irq, up_irq, free_irq down_irq r2)
    else (0, down_irq, up_irq, r2)

/-- `pwm_led_init`: clamp the configured maximum level, acquire the GPIOs
(returning their error directly on failure — the `goto out` path performs no
cleanup), then the IRQs (releasing the GPIOs via the `irq_err` path on
failure). Returns (return code, resources still held). -/
def pwm_led_init (env : GpioEnv)
    (down_button_gpio up_button_gpio led_gpio : Int) :
    Int × Resources :=
  let r0 : Resources := { gpios := [], irqs := [] }
  let (ret, r) := setup_pwm_led_gpios env down_button_gpio up_button_gpio led_gpio r0
  if ret ≠ 0 then (ret, r)
  else
    let (ret2, _, _, r2) := setup_pwm_led_irqs env down_button_gpio up_button_gpio r
    if ret2 ≠ 0 then (ret2, unset_pwm_led_gpios down_button_gpio up_button_gpio led_gpio r2)
    else (0, r2)

/-! ## Definitions taken from the specification's words (for comparison) -/

/-- The spec's 3×3 transition table, transcribed from the table in §4.2:
rows Off, On, Max; columns None, Increase (UP), Decrease (DOWN). -/
def spec_transition_table : LedState → Event → FsmAction
  | .OFF, .NONE => .do_nothing
  | .OFF, .UP => .increase_led_brightness
  | .OFF, .DOWN => .do_nothing
  | .ON, .NONE => .do_nothing
  | .ON, .UP => .increase_led_brightness
  | .ON, .DOWN => .decrease_led_brightness
  | .MAX, .NONE => .do_nothing
  | .MAX, .UP => .do_nothing
  | .MAX, .DOWN => .decrease_led_brightness

/-- The true elapsed time in nanoseconds between two clock readings (the
quantity the spec's PWM dwell comparison is stated over). -/
def elapsed_nanos (now prev : Int) : Int := now - prev

/-- A platform oracle on which the up-button line's `gpio_request` fails
while everything else succeeds. -/
def up_request_fails_env : GpioEnv where
  gpio_is_valid := fun _ => true
  gpio_request_ok := fun g => g != UP_BUTTON_GPIO_DEFAULT
  gpio_to_irq := fun g => g + 100
  request_irq_ok := fun _ => true

/-! ## Helper lemmas -/

/-- The debounce comparison on truncated milliseconds is exactly the 200 ms
threshold on the nanosecond difference of the clocks. -/
theorem millis_lt_debounce_iff (now prev : Int) :
    millis_since_last_irq now prev < BUTTON_DEBOUNCE ↔
      now - prev < BUTTON_DEBOUNCE * NSEC_PER_MSEC := by
  unfold millis_since_last_irq BUTTON_DEBOUNCE NSEC_PER_SEC MSEC_PER_SEC NSEC_PER_MSEC
  omega

/-- One `UP` step from a level with a consistently cached state moves the
level to `min (l + 1) m`, with the cache again consistent. -/
theorem led_level_step_up (m l : Int) (hm : 1 ≤ m) (h1 : l ≤ m) :
    led_level_step m ⟨l, update_led_state m l⟩ Event.UP
      = ⟨min (l + 1) m, update_led_state m (min (l + 1) m)⟩ := by
  have hlvl : (fsm_functions (update_led_state m l) Event.UP).apply l = min (l + 1) m := by
    unfold update_led_state LED_MIN_LEVEL
    split_ifs with hz hmx
    · simp only [fsm_functions, FsmAction.apply]
      omega
    · simp only [fsm_functions, FsmAction.apply]
      omega
    · simp only [fsm_functions, FsmAction.apply]
      omega
  simp only [led_level_step, hlvl]

/-- One `DOWN` step from a level with a consistently cached state moves the
level to `max (l - 1) 0`, with the cache again consistent. -/
theorem led_level_step_down (m l : Int) (hm : 1 ≤ m) (h0 : 0 ≤ l) :
    led_level_step m ⟨l, update_led_state m l⟩ Event.DOWN
      = ⟨max (l - 1) 0, update_led_state m (max (l - 1) 0)⟩ := by
  have hlvl : (fsm_functions (update_led_state m l) Event.DOWN).apply l = max (l - 1) 0 := by
    unfold update_led_state LED_MIN_LEVEL
    split_ifs with hz hmx
    · simp only [fsm_functions, FsmAction.apply]
      omega
    · simp only [fsm_functions, FsmAction.apply]
      omega
    · simp only [fsm_functions, FsmAction.apply]
      omega
  simp only [led_level_step, hlvl]

/-- Any step from a level in `[0, m]` with a consistently cached state keeps
the level in `[0, m]` (for `m ≥ 1`). -/
theorem led_level_step_bounds (m l : Int) (hm : 1 ≤ m) (h0 : 0 ≤ l) (h1 : l ≤ m)
    (ev : Event) :
    0 ≤ (led_level_step m ⟨l, update_led_state m l⟩ ev).led_level ∧
      (led_level_step m ⟨l, update_led_state m l⟩ ev).led_level ≤ m := by
  cases ev with
  | NONE =>
      simp only [led_level_step, fsm_functions]
      cases hst : update_led_state m l <;>
        simp only [fsm_functions, FsmAction.apply] <;> exact ⟨h0, h1⟩
  | UP =>
      rw [led_level_step_up m l hm h1]
      have hb : (0 : Int) ≤ min (l + 1) m ∧ min (l + 1) m ≤ m := by
        constructor <;> omega
      exact hb
  | DOWN =>
      rw [led_level_step_down m l hm h0]
      have hb : (0 : Int) ≤ max (l - 1) 0 ∧ max (l - 1) 0 ≤ m := by
        constructor <;> omega
      exact hb

/-- The cached state after any step is the recomputation from the new
level. -/
theorem led_level_step_cache (m : Int) (s : FsmState) (ev : Event) :
    (led_level_step m s ev).led_state
      = update_led_state m (led_level_step m s ev).led_level := rfl

/-- Every state reached by running the machine from a level in `[0, m]`
with a consistently cached state keeps its level in `[0, m]` (for `m ≥ 1`). -/
theorem led_level_run_bounds (m : Int) (hm : 1 ≤ m) :
    ∀ (evs : List Event) (l : Int), 0 ≤ l → l ≤ m →
      0 ≤ (led_level_run m ⟨l, update_led_state m l⟩ evs).led_level ∧
        (led_level_run m ⟨l, update_led_state m l⟩ evs).led_level ≤ m
  | [], l, h0, h1 => by
      simpa [led_level_run] using ⟨h0, h1⟩
  | ev :: evs, l, h0, h1 => by
      simp only [led_level_run]
      have hstep := led_level_step_bounds m l hm h0 h1 ev
      have hshape : led_level_step m ⟨l, update_led_state m l⟩ ev
          = ⟨(led_level_step m ⟨l, update_led_state m l⟩ ev).led_level,
             update_led_state m
               (led_level_step m ⟨l, update_led_state m l⟩ ev).led_level⟩ := rfl
      rw [hshape]
      exact led_level_run_bounds m hm evs _ hstep.1 hstep.2

/-- Running `n` `UP` events from a consistent state at level `l ∈ [0, m]`
ends at level `min (l + n) m` (for `m ≥ 1`). -/
theorem led_level_run_ups (m : Int) (hm : 1 ≤ m) :
    ∀ (n : Nat) (l : Int), 0 ≤ l → l ≤ m →
      (led_level_run m ⟨l, update_led_state m l⟩
          (List.replicate n Event.UP)).led_level = min (l + n) m
  | 0, l, h0, h1 => by
      simp only [List.replicate, led_level_run]
      omega
  | n + 1, l, h0, h1 => by
      rw [List.replicate_succ]
      simp only [led_level_run]
      rw [led_level_step_up m l hm h1]
      rw [led_level_run_ups m hm n (min (l + 1) m) (by omega) (by omega)]
      push_cast
      omega

/-- Running `n` `DOWN` events from a consistent state at level `l ∈ [0, m]`
ends at level `max (l - n) 0` (for `m ≥ 1`). -/
theorem led_level_run_downs (m : Int) (hm : 1 ≤ m) :
    ∀ (n : Nat) (l : Int), 0 ≤ l → l ≤ m →
      (led_level_run m ⟨l, update_led_state m l⟩
          (List.replicate n Event.DOWN)).led_level = max (l - n) 0
  | 0, l, h0, h1 => by
      simp only [List.replicate, led_level_run]
      omega
  | n + 1, l, h0, h1 => by
      rw [List.replicate_succ]
      simp only [led_level_run]
      rw [led_level_step_down m l hm h0]
      rw [led_level_run_downs m hm n (max (l - 1) 0) (by omega) (by omega)]
      push_cast
      omega

/-! ## Claim theorems -/

/-- C1 (counterexample): with the startup-permitted configuration
MaxLevel = 0 (the clamp leaves 0 unchanged), already the first run of the
brightness state machine — here on the reachable initial state with a
pending `DOWN` event, whose table action is a no-op — faults: the
observability computation `100 * level / led_max_level` divides by zero,
so the run is a fallible operation, contradicting the claim. -/
theorem C1_counterexample :
    led_level_func (validate_led_max_level 0) initial_fsm_state Event.DOWN = none := by
  decide

/-- C1 (amended): for every configuration with MaxLevel ≥ 1 after clamping,
every run of the brightness state machine — table dispatch, level update,
saturation-state recomputation and the percentage computation
`100 * level / MaxLevel` — succeeds: no fallible operation occurs and the
single division performed has the non-zero divisor MaxLevel. -/
theorem C1_no_fallible_operation (led_max_level : Int) (h : 1 ≤ led_max_level)
    (s : FsmState) (ev : Event) :
    (led_level_func led_max_level s ev).isSome = true := by
  have hz : led_max_level ≠ 0 := by omega
  simp [led_level_func, checked_tdiv, hz]

/-- C1 (witness): the amended theorem at MaxLevel = 5 on the initial state. -/
theorem C1_no_fallible_operation_witness :
    (led_level_func 5 initial_fsm_state Event.UP).isSome = true :=
  C1_no_fallible_operation 5 (by decide) initial_fsm_state Event.UP

/-- C2 (counterexample): with the startup-permitted configuration
MaxLevel = 0, one accepted `UP` event from the initial state (level 0,
state Off) drives the level to 1, outside the claimed range [0, 0]: at
level 0 the cached state is Off (the recomputation checks `level == 0`
first), and the Off/Increase table entry increments. -/
theorem C2_counterexample :
    ¬ ((led_level_run (validate_led_max_level 0) initial_fsm_state
          [Event.UP]).led_level ≤ validate_led_max_level 0) := by
  decide

/-- C2 (amended): for every configuration with MaxLevel ≥ 1 and every
sequence of events processed by the brightness state machine from the
initial state (level 0, state Off), the observed level lies in
[0, MaxLevel]. -/
theorem C2_level_within_bounds (led_max_level : Int) (h : 1 ≤ led_max_level)
    (evs : List Event) :
    0 ≤ (led_level_run led_max_level initial_fsm_state evs).led_level ∧
      (led_level_run led_max_level initial_fsm_state evs).led_level ≤ led_max_level := by
  have h0 : initial_fsm_state
      = (⟨0, update_led_state led_max_level 0⟩ : FsmState) := by
    simp [initial_fsm_state, update_led_state, LED_MIN_LEVEL]
  rw [h0]
  exact led_level_run_bounds led_max_level h evs 0 le_rfl (by omega)

/-- C2 (witness): the amended theorem at MaxLevel = 5 on a two-event run. -/
theorem C2_level_within_bounds_witness :
    0 ≤ (led_level_run 5 initial_fsm_state [Event.UP, Event.UP]).led_level ∧
      (led_level_run 5 initial_fsm_state [Event.UP, Event.UP]).led_level ≤ 5 :=
  C2_level_within_bounds 5 (by decide) [Event.UP, Event.UP]

/-- C3 (counterexample): the claimed recomputation rule "Max iff
level == MaxLevel" fails on the code for the startup-permitted
configuration MaxLevel = 0: at level 0 the level equals MaxLevel, yet
`update_led_state` yields Off (its `if` chain tests `level == 0` first),
not Max. -/
theorem C3_counterexample :
    (0 : Int) = validate_led_max_level 0 ∧
      update_led_state (validate_led_max_level 0) 0 ≠ LedState.MAX := by
  decide

/-- C3 (amended): the transition table is total and agrees with the spec's
3×3 table entry by entry; each state-machine run applies exactly that one
action to the level and then recomputes the saturation state from the new
level, where the recomputed state is Off iff the level is 0, Max iff the
level equals MaxLevel and is non-zero, and On otherwise (the code resolves
the MaxLevel = 0 overlap in favour of Off). -/
theorem C3_table_and_recompute (led_max_level level : Int) :
    (∀ (st : LedState) (ev : Event),
        fsm_functions st ev = spec_transition_table st ev) ∧
    (∀ (s : FsmState) (ev : Event),
        led_level_step led_max_level s ev =
          { led_level := (fsm_functions s.led_state ev).apply s.led_level,
            led_state := update_led_state led_max_level
              ((fsm_functions s.led_state ev).apply s.led_level) }) ∧
    (update_led_state led_max_level level = LedState.OFF ↔ level = 0) ∧
    (update_led_state led_max_level level = LedState.MAX ↔
        level = led_max_level ∧ level ≠ 0) ∧
    (update_led_state led_max_level level = LedState.ON ↔
        level ≠ 0 ∧ level ≠ led_max_level) := by
  refine ⟨?_, ?_, ?_, ?_, ?_⟩
  · intro st ev
    cases st <;> cases ev <;> rfl
  · intro s ev
    rfl
  · unfold update_led_state LED_MIN_LEVEL
    split_ifs with h1 h2 <;> simp_all
  · unfold update_led_state LED_MIN_LEVEL
    split_ifs with h1 h2 <;> simp_all
  · unfold update_led_state LED_MIN_LEVEL
    split_ifs with h1 h2 <;> simp_all

/-- C4 (code evaluation at the failing input): with Period = 10^7 ns,
MaxLevel = 5, level = 1, the line currently HIGH and the last transition
one full second ago (`now − prev_led_switch = 10^9` ns), the true elapsed
nanoseconds exceed the required dwell of 2·10^6 ns, so the claim demands a
flip — but the iteration leaves the output line and the transition
timestamp unchanged, because line 355 of the source scales the seconds
field of the difference by `USEC_PER_SEC` (10^6) instead of
`NSEC_PER_SEC`, computing an "elapsed" value of only 10^6. -/
theorem C4_code_divergence :
    elapsed_nanos 1000000000 0 ≥ required_delay 10000000 5 1 true ∧
      led_ctrl_func 5 10000000 1 1000000000
          { led_gpio_value := true, prev_led_switch := 0 }
        = ({ led_gpio_value := true, prev_led_switch := 0 }, true) := by
  decide

/-- C5: an edge on a button line is accepted iff the nanosecond difference
between its arrival time and that line's debounce clock is at least the
200 ms window (the boundary accepts); on acceptance the clock is re-armed
to `now`, the pending event becomes Decrease (down line) or Increase (up
line) and the state-machine work is scheduled; on rejection the state is
untouched and no work is scheduled. -/
theorem C5_debounce_accept_iff
    (down_button_irq up_button_irq irq now : Int) (s : BtnState)
    (hne : down_button_irq ≠ up_button_irq) :
    (irq = down_button_irq →
      (now - s.prev_down_button_irq ≥ BUTTON_DEBOUNCE * NSEC_PER_MSEC →
        button_irq_handler down_button_irq up_button_irq irq now s
          = ({ s with prev_down_button_irq := now, led_event := Event.DOWN },
             true, Irqreturn.IRQ_HANDLED)) ∧
      (now - s.prev_down_button_irq < BUTTON_DEBOUNCE * NSEC_PER_MSEC →
        button_irq_handler down_button_irq up_button_irq irq now s
          = (s, false, Irqreturn.IRQ_HANDLED))) ∧
    (irq = up_button_irq →
      (now - s.prev_up_button_irq ≥ BUTTON_DEBOUNCE * NSEC_PER_MSEC →
        button_irq_handler down_button_irq up_button_irq irq now s
          = ({ s with prev_up_button_irq := now, led_event := Event.UP },
             true, Irqreturn.IRQ_HANDLED)) ∧
      (now - s.prev_up_button_irq < BUTTON_DEBOUNCE * NSEC_PER_MSEC →
        button_irq_handler down_button_irq up_button_irq irq now s
          = (s, false, Irqreturn.IRQ_HANDLED))) := by
  constructor
  · intro h
    subst h
    unfold button_irq_handler
    rw [if_pos rfl]
    constructor
    · intro hacc
      rw [if_neg]
      rw [millis_lt_debounce_iff]
      omega
    · intro hrej
      rw [if_pos]
      rw [millis_lt_debounce_iff]
      omega
  · intro h
    subst h
    unfold button_irq_handler
    rw [if_neg (fun hh => hne hh.symm), if_pos rfl]
    constructor
    · intro hacc
      rw [if_neg]
      rw [millis_lt_debounce_iff]
      omega
    · intro hrej
      rw [if_pos]
      rw [millis_lt_debounce_iff]
      omega

/-- C5 (witness): the theorem at concrete IRQ numbers 101 ≠ 102, an edge on
the down line 300 ms after the clock: the edge is accepted. -/
theorem C5_debounce_accept_iff_witness :
    button_irq_handler 101 102 101 300000000
        { prev_down_button_irq := 0, prev_up_button_irq := 0, led_event := Event.NONE }
      = ({ prev_down_button_irq := 300000000, prev_up_button_irq := 0,
           led_event := Event.DOWN }, true, Irqreturn.IRQ_HANDLED) :=
  ((C5_debounce_accept_iff 101 102 101 300000000
      { prev_down_button_irq := 0, prev_up_button_irq := 0, led_event := Event.NONE }
      (by decide)).1 rfl).1 (by decide)

/-- C6 (counterexample): with the startup-permitted configuration
MaxLevel = 0 (which the claim's "for every MaxLevel" includes), a single
accepted Increase event from level 0 ends at level 1, not at
min(1, 0) = 0. -/
theorem C6_counterexample :
    (led_level_run (validate_led_max_level 0) initial_fsm_state
        (List.replicate 1 Event.UP)).led_level
      ≠ min ((1 : Nat) : Int) (validate_led_max_level 0) := by
  decide

/-- C6 (amended): for every MaxLevel ≥ 1 and every N, a run of N Increase
events from level 0 (state Off) ends at level min(N, MaxLevel), and a run
of N Decrease events from level MaxLevel (state Max) ends at level
max(MaxLevel − N, 0). -/
theorem C6_saturation (led_max_level : Int) (h : 1 ≤ led_max_level) (N : Nat) :
    (led_level_run led_max_level initial_fsm_state
        (List.replicate N Event.UP)).led_level = min (N : Int) led_max_level ∧
    (led_level_run led_max_level
        { led_level := led_max_level, led_state := LedState.MAX }
        (List.replicate N Event.DOWN)).led_level
      = max (led_max_level - (N : Int)) 0 := by
  constructor
  · have h0 : initial_fsm_state
        = (⟨0, update_led_state led_max_level 0⟩ : FsmState) := by
      simp [initial_fsm_state, update_led_state, LED_MIN_LEVEL]
    rw [h0, led_level_run_ups led_max_level h N 0 le_rfl (by omega)]
    omega
  · have hmax : update_led_state led_max_level led_max_level = LedState.MAX := by
      unfold update_led_state LED_MIN_LEVEL
      split_ifs with h1 h2
      · omega
      · rfl
      · exact absurd rfl h2
    have h0 : ({ led_level := led_max_level, led_state := LedState.MAX } : FsmState)
        = (⟨led_max_level, update_led_state led_max_level led_max_level⟩ : FsmState) := by
      rw [hmax]
    rw [h0, led_level_run_downs led_max_level h N led_max_level (by omega) le_rfl]

/-- C6 (witness): the amended theorem at MaxLevel = 5, N = 7. -/
theorem C6_saturation_witness :
    (led_level_run 5 initial_fsm_state
        (List.replicate 7 Event.UP)).led_level = min ((7 : Nat) : Int) 5 ∧
    (led_level_run 5 { led_level := 5, led_state := LedState.MAX }
        (List.replicate 7 Event.DOWN)).led_level = max (5 - ((7 : Nat) : Int)) 0 :=
  C6_saturation 5 (by decide) 7

/-- C7: the dwell times of the PWM engine are computed by truncating
integer division — HIGH dwell `Period·level/MaxLevel`, LOW dwell
`Period − Period·level/MaxLevel` — and at MaxLevel = 5, level = 2,
Period = 100000 ns they are exactly 40000 ns and 60000 ns. -/
theorem C7_pwm_dwell_truncation :
    required_delay 100000 5 2 true = 40000 ∧
    required_delay 100000 5 2 false = 60000 ∧
    ∀ (pulse_frequency led_max_level level : Int),
      required_delay pulse_frequency led_max_level level true
          = cdiv (pulse_frequency * level) led_max_level ∧
        required_delay pulse_frequency led_max_level level false
          = pulse_frequency - cdiv (pulse_frequency * level) led_max_level :=
  ⟨by decide, by decide, fun _ _ _ => ⟨rfl, rfl⟩⟩

/-- C8 (counterexample): with the startup-permitted configuration
MaxLevel = 0, an iteration at level 0 — a level equal to MaxLevel — drives
the output line LOW, not HIGH as the claim's "if level == MaxLevel the
output line is forced HIGH" demands (the code's ternary tests
`level == LED_MIN_LEVEL` first). -/
theorem C8_counterexample :
    (0 : Int) = validate_led_max_level 0 ∧
      (led_ctrl_func (validate_led_max_level 0) 100000 0 5
          { led_gpio_value := true, prev_led_switch := 0 }).1.led_gpio_value
        = false := by
  decide

/-- C8 (amended): in every PWM-engine iteration, level 0 forces the output
LOW and a level equal to a non-zero MaxLevel forces it HIGH; in both
boundary cases no dwell is computed, the transition timestamp is left
unchanged and the task reschedules itself immediately. -/
theorem C8_pwm_boundary_levels (led_max_level pulse_frequency level now : Int)
    (s : CtrlState) :
    (level = 0 →
      led_ctrl_func led_max_level pulse_frequency level now s
        = ({ s with led_gpio_value := false }, true)) ∧
    (level = led_max_level → level ≠ 0 →
      led_ctrl_func led_max_level pulse_frequency level now s
        = ({ s with led_gpio_value := true }, true)) := by
  constructor
  · intro h
    subst h
    unfold led_ctrl_func LED_MIN_LEVEL
    rw [if_pos (Or.inl rfl), if_pos rfl]
  · intro h h0
    subst h
    unfold led_ctrl_func LED_MIN_LEVEL
    rw [if_pos (Or.inr rfl), if_neg h0]

/-- C8 (witness): the amended theorem at MaxLevel = 5, level = 0: the line
(currently HIGH) is forced LOW and the timestamp is untouched. -/
theorem C8_pwm_boundary_levels_witness :
    led_ctrl_func 5 100000 0 7 { led_gpio_value := true, prev_led_switch := 0 }
      = ({ led_gpio_value := false, prev_led_switch := 0 }, true) :=
  (C8_pwm_boundary_levels 5 100000 0 7
      { led_gpio_value := true, prev_led_switch := 0 }).1 rfl

/-- C9 (code evaluation at the failing input): on a platform where the
down-button line is acquired successfully and the up-button line's
`gpio_request` then fails, `pwm_led_init` surfaces the error while the
down-button GPIO is still held — `setup_pwm_led_gpios` returns without
freeing it and the `goto out` error path of `pwm_led_init` performs no
cleanup — so a partial-success state is retained, contradicting the
claim's rollback guarantee. -/
theorem C9_init_gpio_leak :
    (pwm_led_init up_request_fails_env
        DOWN_BUTTON_GPIO_DEFAULT UP_BUTTON_GPIO_DEFAULT LED_GPIO_DEFAULT).1 ≠ 0 ∧
      (pwm_led_init up_request_fails_env
          DOWN_BUTTON_GPIO_DEFAULT UP_BUTTON_GPIO_DEFAULT LED_GPIO_DEFAULT).2.gpios
        = [DOWN_BUTTON_GPIO_DEFAULT] := by
  decide

/-- C10: the interrupt handler returns IRQ_HANDLED on every path, and on an
IRQ number matching neither button line it leaves both debounce clocks and
the pending event unchanged while still scheduling the state-machine
work. -/
theorem C10_irq_handler_total (down_button_irq up_button_irq irq now : Int)
    (s : BtnState) :
    (button_irq_handler down_button_irq up_button_irq irq now s).2.2
        = Irqreturn.IRQ_HANDLED ∧
    (irq ≠ down_button_irq → irq ≠ up_button_irq →
      button_irq_handler down_button_irq up_button_irq irq now s
        = (s, true, Irqreturn.IRQ_HANDLED)) := by
  constructor
  · unfold button_irq_handler
    split_ifs <;> rfl
  · intro h1 h2
    unfold button_irq_handler
    rw [if_neg h1, if_neg h2]

/-- C10 (witness): the theorem at IRQ 555 with button IRQs 101 and 102: the
state is unchanged and the work is still scheduled. -/
theorem C10_irq_handler_total_witness :
    button_irq_handler 101 102 555 0
        { prev_down_button_irq := 0, prev_up_button_irq := 0, led_event := Event.NONE }
      = ({ prev_down_button_irq := 0, prev_up_button_irq := 0, led_event := Event.NONE },
         true, Irqreturn.IRQ_HANDLED) :=
  (C10_irq_handler_total 101 102 555 0
      { prev_down_button_irq := 0, prev_up_button_irq := 0, led_event := Event.NONE }).2
    (by decide) (by decide)
